import Mathlib

/-!
Shallow embedding of `src/vulkano/src/descriptor/pipeline_layout/sys.rs`
(the `PipelineLayout::new` construction algorithm and its accessors).

Machine integers are modelled as `Nat`; the only narrowing conversions the
algorithm performs are the `as u32` casts on the push-constant `offset`
and `size` fields and on the two count fields of the creation request,
which are modelled with an explicit `% 2 ^ 32`.  Panics (the `assert_eq!`
on cross-device set layouts, the failed `debug_assert!`, and the
`panic!` arm of `From<Error>`) are modelled by the `RunResult.abort`
outcome.  The single native `vkCreatePipelineLayout` call and the
delegated native descriptor-set-layout creation are modelled by an
explicit environment (`NativeEnv`); `PipelineLayout.new` additionally
returns a `Bool` recording whether the native pipeline-layout creation
call was issued.
-/

set_option autoImplicit false

namespace Vulkano

/-- Modelled from the spec: a shader-stage mask is "a bitset over shader
stages (vertex, fragment, compute, etc.); `none` is a distinguished empty
value".  The `ShaderStages` collaborator type itself is not part of the
source under scrutiny; only its empty value and its conversion `into` a
native `u32` bitmask are consumed by `PipelineLayout::new`. -/
structure ShaderStages where
  vertex : Bool
  tessellation_control : Bool
  tessellation_evaluation : Bool
  geometry : Bool
  fragment : Bool
  compute : Bool
deriving DecidableEq, Repr

/-- The distinguished empty stage mask (`ShaderStages::none()`). -/
def ShaderStages.none : ShaderStages :=
  ⟨false, false, false, false, false, false⟩

/-- Conversion of a stage mask to the native `u32` bit flags
(`stages.into()`), one distinct bit per stage. -/
def ShaderStages.into (s : ShaderStages) : Nat :=
  (if s.vertex then 0x01 else 0) |||
  (if s.tessellation_control then 0x02 else 0) |||
  (if s.tessellation_evaluation then 0x04 else 0) |||
  (if s.geometry then 0x08 else 0) |||
  (if s.fragment then 0x10 else 0) |||
  (if s.compute then 0x20 else 0)

/-- Modelled from the spec: an opaque per-binding descriptor
specification (`DescriptorDesc`); its internals are not consumed by the
pipeline-layout module, which only forwards these values to the
descriptor-set-layout collaborator. -/
structure DescriptorDesc where
  token : Nat
deriving DecidableEq, Repr

/-- Modelled from the spec: the device collaborator, flattened to what
`PipelineLayout::new` consumes — its native handle
(`device.internal_object()`) and the two limits
(`physical_device().limits().max_bound_descriptor_sets()` and
`max_push_constants_size()`, both `u32` in the native interface). -/
structure Device where
  internal_object : Nat
  max_bound_descriptor_sets : Nat
  max_push_constants_size : Nat
deriving DecidableEq, Repr

/-- Modelled from the spec: an already-constructed descriptor-set-layout
object (`UnsafeDescriptorSetLayout`): it records the device it belongs
to, its native handle, and the per-binding descriptors it was built
from. -/
structure UnsafeDescriptorSetLayout where
  device : Device
  handle : Nat
  bindings : List (Option DescriptorDesc)
deriving DecidableEq, Repr

/-- Out-of-memory error (`OomError`). -/
inductive OomError where
  | OutOfHostMemory
  | OutOfDeviceMemory
deriving DecidableEq, Repr

/-- The driver error codes relevant to `From<Error> for
PipelineLayoutCreationError`: the two out-of-memory codes are translated,
every other code (`OtherError` stands for all of them) hits the
`panic!("unexpected error")` arm. -/
inductive Error where
  | OutOfHostMemory
  | OutOfDeviceMemory
  | OtherError
deriving DecidableEq, Repr

/-- Error that can happen when creating a pipeline layout
(`PipelineLayoutCreationError`). -/
inductive PipelineLayoutCreationError where
  | OomError : OomError → PipelineLayoutCreationError
  | MaxDescriptorSetsLimitExceeded
  | MaxPushConstantsSizeExceeded
  | InvalidPushConstant
deriving DecidableEq, Repr

/-- One push-constant range as supplied by the description
(`PipelineLayoutDescPcRange { offset, size, stages }`); `offset` and
`size` are `usize` byte counts. -/
structure PipelineLayoutDescPcRange where
  offset : Nat
  size : Nat
  stages : ShaderStages
deriving DecidableEq, Repr

/-- The abstract layout description (the `PipelineLayoutDesc` trait),
modelled as a record of its query methods. -/
structure PipelineLayoutDescModel where
  num_sets : Nat
  num_bindings_in_set : Nat → Option Nat
  descriptor : Nat → Nat → Option DescriptorDesc
  provided_set_layout : Nat → Option UnsafeDescriptorSetLayout
  num_push_constants_ranges : Nat
  push_constants_range : Nat → Option PipelineLayoutDescPcRange

namespace vk

/-- Native push-constant range entry (`vk::PushConstantRange`); all
fields are `u32`. -/
structure PushConstantRange where
  stageFlags : Nat
  offset : Nat
  size : Nat
deriving DecidableEq, Repr

/-- Native creation request (`vk::PipelineLayoutCreateInfo`); the
constant `sType`/`pNext`/`flags` fields are omitted, the pointer/length
pairs are modelled as lists together with the `as u32` casts of their
lengths. -/
structure PipelineLayoutCreateInfo where
  setLayoutCount : Nat
  pSetLayouts : List Nat
  pushConstantRangeCount : Nat
  pPushConstantRanges : List PushConstantRange
deriving DecidableEq, Repr

end vk

/-- Modelled from the spec: the native side — the delegated
descriptor-set-layout creation (which "may create new native set-layout
objects" and can fail with out-of-memory) and the single
`vkCreatePipelineLayout` call, which returns a fresh native handle or a
driver error code. -/
structure NativeEnv where
  descriptor_set_layout_new : Nat → List (Option DescriptorDesc) → Except OomError Nat
  CreatePipelineLayout : vk.PipelineLayoutCreateInfo → Except Error Nat

/-- Outcome of running a fragment of the construction algorithm:
`abort` models a panic (a failed assertion or the `panic!` arm),
`error` a returned `Err`, `ok` normal completion. -/
inductive RunResult (ε : Type) (α : Type) where
  | abort : RunResult ε α
  | error : ε → RunResult ε α
  | ok : α → RunResult ε α
deriving DecidableEq, Repr

/-- Modelled from the spec: `UnsafeDescriptorSetLayout::new(device,
desc_iter)` builds a fresh set-layout object, owned by `device`, from the
supplied per-binding descriptors; it delegates the native creation and
can fail with `OomError`. -/
def UnsafeDescriptorSetLayout.new (env : NativeEnv) (device : Device)
    (bindings : List (Option DescriptorDesc)) :
    Except OomError UnsafeDescriptorSetLayout :=
  match env.descriptor_set_layout_new device.internal_object bindings with
  | .ok h => .ok { device := device, handle := h, bindings := bindings }
  | .error e => .error e

/-- One iteration of the set-layout loop (sys.rs lines 59-71): a provided
layout is checked against the device (`assert_eq!` on the two
`internal_object()`s, a panic on mismatch); an absent one is built from
the per-binding descriptors of the set, an unknown binding count
(`num_bindings_in_set` returning `None`) being treated as zero
(`unwrap_or(0)`). -/
def resolveSetLayout (env : NativeEnv) (device : Device)
    (desc : PipelineLayoutDescModel) (num : Nat) :
    RunResult PipelineLayoutCreationError UnsafeDescriptorSetLayout :=
  match desc.provided_set_layout num with
  | some l =>
    if l.device.internal_object = device.internal_object then .ok l else .abort
  | none =>
    let sets_iter := List.range ((desc.num_bindings_in_set num).getD 0)
    let desc_iter := sets_iter.map (fun d => desc.descriptor num d)
    match UnsafeDescriptorSetLayout.new env device desc_iter with
    | .ok l => .ok l
    | .error e => .error (.OomError e)

/-- The set-layout loop over an explicit list of set indices, propagating
the first panic or error in index order. -/
def resolveSetLayoutsGo (env : NativeEnv) (device : Device)
    (desc : PipelineLayoutDescModel) :
    List Nat → RunResult PipelineLayoutCreationError (List UnsafeDescriptorSetLayout)
  | [] => .ok []
  | num :: rest =>
    match resolveSetLayout env device desc num with
    | .abort => .abort
    | .error e => .error e
    | .ok l =>
      match resolveSetLayoutsGo env device desc rest with
      | .abort => .abort
      | .error e => .error e
      | .ok ls => .ok (l :: ls)

/-- Building the list of `UnsafeDescriptorSetLayout` objects for the set
indices `0 .. desc.num_sets()` (sys.rs lines 57-73). -/
def resolveSetLayouts (env : NativeEnv) (device : Device)
    (desc : PipelineLayoutDescModel) :
    RunResult PipelineLayoutCreationError (List UnsafeDescriptorSetLayout) :=
  resolveSetLayoutsGo env device desc (List.range desc.num_sets)

/-- Validation of a single present push-constant range (sys.rs lines
98-110): the shape checks (empty stage mask, zero size, size not a
multiple of 4) come first and yield `InvalidPushConstant`; then the size
limit check yields `MaxPushConstantsSizeExceeded`; an accepted range is
converted to a native entry, the `as u32` casts modelled by `% 2 ^ 32`. -/
def validatePcRange (device : Device) (r : PipelineLayoutDescPcRange) :
    Except PipelineLayoutCreationError vk.PushConstantRange :=
  if r.stages = ShaderStages.none ∨ r.size = 0 ∨ r.size % 4 ≠ 0 then
    .error .InvalidPushConstant
  else if r.offset + r.size > device.max_push_constants_size then
    .error .MaxPushConstantsSizeExceeded
  else
    .ok { stageFlags := r.stages.into,
          offset := r.offset % 2 ^ 32,
          size := r.size % 2 ^ 32 }

/-- The push-constant loop over an explicit list of range indices (sys.rs
lines 90-111): a missing entry (`push_constants_range` returning `None`)
is skipped via `continue`; a present entry is validated and appended. -/
def assembleGo (device : Device) (desc : PipelineLayoutDescModel) :
    List Nat → Except PipelineLayoutCreationError (List vk.PushConstantRange)
  | [] => .ok []
  | pc_id :: rest =>
    match desc.push_constants_range pc_id with
    | Option.none => assembleGo device desc rest
    | some r =>
      match validatePcRange device r with
      | .error e => .error e
      | .ok pc =>
        match assembleGo device desc rest with
        | .error e => .error e
        | .ok out => .ok (pc :: out)

/-- Building the list of `vk::PushConstantRange` for the range indices
`0 .. desc.num_push_constants_ranges()` (sys.rs lines 87-114). -/
def assemblePushConstants (device : Device) (desc : PipelineLayoutDescModel) :
    Except PipelineLayoutCreationError (List vk.PushConstantRange) :=
  assembleGo device desc (List.range desc.num_push_constants_ranges)

/-- The body of the `debug_assert!` at sys.rs lines 119-130, translated
literally: the accumulator starts at `0`, the loop reports failure when
`stages & pc.stageFlags != 0` and is updated with `stages &=
pc.stageFlags` (the source uses `&=`, not `|=`). -/
def pcOverlapCheckGo (stages : Nat) : List vk.PushConstantRange → Bool
  | [] => true
  | pc :: rest =>
    if stages &&& pc.stageFlags ≠ 0 then false
    else pcOverlapCheckGo (stages &&& pc.stageFlags) rest

/-- The checked condition of the `debug_assert!` after assembling the
push-constant ranges: intended to be `false` exactly when two entries
share a stage bit. -/
def pcOverlapCheck (push_constants : List vk.PushConstantRange) : Bool :=
  pcOverlapCheckGo 0 push_constants

/-- The produced pipeline-layout object (`PipelineLayout<L>`): it owns
the native handle and holds the device, the resolved set-layout list and
the original description. -/
structure PipelineLayout where
  device : Device
  layout : Nat
  layouts : List UnsafeDescriptorSetLayout
  desc : PipelineLayoutDescModel

/-- The native-call stage of `PipelineLayout::new` (sys.rs lines
136-158): package the set-layout handles and the validated push-constant
ranges into the creation request, issue the single
`vkCreatePipelineLayout` call, translate a driver error per
`From<Error>` (out-of-memory codes become `OomError`, anything else hits
the `panic!` arm) and on success wrap the owned resources.  The second
component records that the native call was issued. -/
def buildNative (env : NativeEnv) (device : Device)
    (desc : PipelineLayoutDescModel)
    (layouts : List UnsafeDescriptorSetLayout)
    (push_constants : List vk.PushConstantRange) :
    RunResult PipelineLayoutCreationError PipelineLayout × Bool :=
  let layouts_ids := layouts.map (fun l => l.handle)
  let infos : vk.PipelineLayoutCreateInfo :=
    { setLayoutCount := layouts_ids.length % 2 ^ 32,
      pSetLayouts := layouts_ids,
      pushConstantRangeCount := push_constants.length % 2 ^ 32,
      pPushConstantRanges := push_constants }
  match env.CreatePipelineLayout infos with
  | .ok out =>
    (.ok { device := device, layout := out,
           layouts := layouts, desc := desc }, true)
  | .error Error.OutOfHostMemory =>
    (.error (.OomError .OutOfHostMemory), true)
  | .error Error.OutOfDeviceMemory =>
    (.error (.OomError .OutOfDeviceMemory), true)
  | .error Error.OtherError => (.abort, true)

/-- `PipelineLayout::new` (sys.rs lines 50-159): resolve the set layouts,
check the bound-descriptor-set limit, assemble the push-constant ranges,
run the debug assertion, then issue the single native creation call.  The
second component records whether `vkCreatePipelineLayout` was invoked. -/
def PipelineLayout.new (env : NativeEnv) (device : Device)
    (desc : PipelineLayoutDescModel) :
    RunResult PipelineLayoutCreationError PipelineLayout × Bool :=
  match resolveSetLayouts env device desc with
  | .abort => (.abort, false)
  | .error e => (.error e, false)
  | .ok layouts =>
    if (layouts.map (fun l => l.handle)).length > device.max_bound_descriptor_sets then
      (.error .MaxDescriptorSetsLimitExceeded, false)
    else
      match assemblePushConstants device desc with
      | .error e => (.error e, false)
      | .ok push_constants =>
        if pcOverlapCheck push_constants then
          buildNative env device desc layouts push_constants
        else (.abort, false)

/-- `PipelineLayoutAbstract::descriptor_set_layout` (sys.rs lines
177-179): `self.layouts.get(index)`. -/
def PipelineLayout.descriptor_set_layout (pl : PipelineLayout)
    (index : Nat) : Option UnsafeDescriptorSetLayout :=
  pl.layouts[index]?

/-- The three error kinds produced by the pre-call validation stages of
`PipelineLayout::new` (as opposed to the driver-reported out-of-memory
kind). -/
def isValidationError : PipelineLayoutCreationError → Bool
  | .MaxDescriptorSetsLimitExceeded => true
  | .MaxPushConstantsSizeExceeded => true
  | .InvalidPushConstant => true
  | .OomError _ => false

/-! Concrete fixtures used by the witnesses and counterexamples below. -/

/-- A stage mask selecting only the vertex stage. -/
def vertexStages : ShaderStages := ⟨true, false, false, false, false, false⟩

/-- A stage mask selecting only the fragment stage. -/
def fragmentStages : ShaderStages := ⟨false, false, false, false, true, false⟩

/-- A device with handle 1, up to 4 bound descriptor sets and 128 bytes
of push constants. -/
def cdev : Device := ⟨1, 4, 128⟩

/-- A device with handle 1 that admits no bound descriptor set. -/
def cdevNoSets : Device := ⟨1, 0, 128⟩

/-- A native environment in which every creation call succeeds. -/
def cenv : NativeEnv :=
  ⟨fun _ _ => .ok 7, fun _ => .ok 42⟩

/-- A native environment in which descriptor-set-layout creation always
reports out-of-host-memory. -/
def cenvOom : NativeEnv :=
  ⟨fun _ _ => .error .OutOfHostMemory, fun _ => .ok 42⟩

/-- A set layout belonging to the device with handle 1. -/
def cLayout : UnsafeDescriptorSetLayout := ⟨cdev, 5, []⟩

/-- A set layout belonging to a foreign device (handle 99). -/
def cLayoutOther : UnsafeDescriptorSetLayout := ⟨⟨99, 4, 128⟩, 6, []⟩

/-- A description with a single provided set layout and no push
constants. -/
def descOneProvided : PipelineLayoutDescModel :=
  { num_sets := 1,
    num_bindings_in_set := fun _ => Option.none,
    descriptor := fun _ _ => Option.none,
    provided_set_layout := fun _ => some cLayout,
    num_push_constants_ranges := 0,
    push_constants_range := fun _ => Option.none }

/-- A description whose set 0 must be freshly built and whose set 1
supplies a layout belonging to a foreign device. -/
def descCross : PipelineLayoutDescModel :=
  { num_sets := 2,
    num_bindings_in_set := fun _ => Option.none,
    descriptor := fun _ _ => Option.none,
    provided_set_layout := fun n => if n = 0 then Option.none else some cLayoutOther,
    num_push_constants_ranges := 0,
    push_constants_range := fun _ => Option.none }

/-- A description with a single provided cross-device set layout. -/
def descCrossFirst : PipelineLayoutDescModel :=
  { num_sets := 1,
    num_bindings_in_set := fun _ => Option.none,
    descriptor := fun _ _ => Option.none,
    provided_set_layout := fun _ => some cLayoutOther,
    num_push_constants_ranges := 0,
    push_constants_range := fun _ => Option.none }

/-- A description with no sets and two push-constant ranges: range 0 is
well-shaped but exceeds a 128-byte limit, range 1 has size 0. -/
def descLimitThenShape : PipelineLayoutDescModel :=
  { num_sets := 0,
    num_bindings_in_set := fun _ => Option.none,
    descriptor := fun _ _ => Option.none,
    provided_set_layout := fun _ => Option.none,
    num_push_constants_ranges := 2,
    push_constants_range := fun n =>
      if n = 0 then some ⟨0, 256, vertexStages⟩ else some ⟨0, 0, vertexStages⟩ }

/-- A description with no sets and two push-constant ranges: range 0 has
size 0, range 1 is well-shaped but exceeds a 128-byte limit. -/
def descShapeThenLimit : PipelineLayoutDescModel :=
  { num_sets := 0,
    num_bindings_in_set := fun _ => Option.none,
    descriptor := fun _ _ => Option.none,
    provided_set_layout := fun _ => Option.none,
    num_push_constants_ranges := 2,
    push_constants_range := fun n =>
      if n = 0 then some ⟨0, 0, vertexStages⟩ else some ⟨0, 256, fragmentStages⟩ }

/-- A description with no sets and two push-constant ranges: range 0 is
valid, range 1 has an empty stage mask. -/
def descOkThenShape : PipelineLayoutDescModel :=
  { num_sets := 0,
    num_bindings_in_set := fun _ => Option.none,
    descriptor := fun _ _ => Option.none,
    provided_set_layout := fun _ => Option.none,
    num_push_constants_ranges := 2,
    push_constants_range := fun n =>
      if n = 0 then some ⟨0, 4, vertexStages⟩ else some ⟨8, 4, ShaderStages.none⟩ }

/-- A description with no sets and two push-constant ranges: range 0 is
valid, range 1 is well-shaped but exceeds a 128-byte limit. -/
def descOkThenLimit : PipelineLayoutDescModel :=
  { num_sets := 0,
    num_bindings_in_set := fun _ => Option.none,
    descriptor := fun _ _ => Option.none,
    provided_set_layout := fun _ => Option.none,
    num_push_constants_ranges := 2,
    push_constants_range := fun n =>
      if n = 0 then some ⟨0, 4, vertexStages⟩ else some ⟨4, 256, fragmentStages⟩ }

/-- A description with one set of three bindings to be freshly built and
one valid push-constant range. -/
def descBuildOne : PipelineLayoutDescModel :=
  { num_sets := 1,
    num_bindings_in_set := fun _ => some 3,
    descriptor := fun _ d => some ⟨d⟩,
    provided_set_layout := fun _ => Option.none,
    num_push_constants_ranges := 1,
    push_constants_range := fun _ => some ⟨0, 8, vertexStages⟩ }

/-- The pipeline layout produced by `PipelineLayout.new cenv cdev
descBuildOne`: native handle 42, one freshly built set layout (handle 7)
with the three per-binding descriptors of set 0. -/
def cpl : PipelineLayout :=
  { device := cdev, layout := 42,
    layouts := [⟨cdev, 7, [some ⟨0⟩, some ⟨1⟩, some ⟨2⟩]⟩],
    desc := descBuildOne }

/-- A description with two push-constant indices of which index 0 is
absent (sparse) and index 1 is a valid range. -/
def descSparsePc : PipelineLayoutDescModel :=
  { num_sets := 0,
    num_bindings_in_set := fun _ => Option.none,
    descriptor := fun _ _ => Option.none,
    provided_set_layout := fun _ => Option.none,
    num_push_constants_ranges := 2,
    push_constants_range := fun n =>
      if n = 0 then Option.none else some ⟨0, 4, vertexStages⟩ }

/-! General lemmas about the embedded algorithm. -/

/-- The accumulator of the overlap check is absorbed by `&&&`: starting
from `0` it stays `0`, so the translated `debug_assert!` body returns
`true` on every list. -/
theorem pcOverlapCheckGo_zero (l : List vk.PushConstantRange) :
    pcOverlapCheckGo 0 l = true := by
  induction l with
  | nil => rfl
  | cons pc rest ih =>
    simp [pcOverlapCheckGo, Nat.zero_and, ih]

/-- The overlap condition checked by the `debug_assert!` evaluates to
`true` on every assembled push-constant list whatsoever. -/
theorem pcOverlapCheck_eq_true (l : List vk.PushConstantRange) :
    pcOverlapCheck l = true :=
  pcOverlapCheckGo_zero l

/-- Splitting `List.range n` at an index `i < n`. -/
theorem range_split {i n : Nat} (h : i < n) :
    ∃ l₂, List.range n = List.range i ++ i :: l₂ := by
  induction n with
  | zero => omega
  | succ n ih =>
    rcases Nat.lt_succ_iff_lt_or_eq.mp h with h' | rfl
    · obtain ⟨l₂, hl⟩ := ih h'
      exact ⟨l₂ ++ [n], by rw [List.range_succ, hl]; simp⟩
    · exact ⟨[], by rw [List.range_succ]⟩

/-- The set-layout loop over an appended index list runs the two halves
in sequence, the first panic or error winning. -/
theorem resolveSetLayoutsGo_append (env : NativeEnv) (device : Device)
    (desc : PipelineLayoutDescModel) (l₁ l₂ : List Nat) :
    resolveSetLayoutsGo env device desc (l₁ ++ l₂) =
      match resolveSetLayoutsGo env device desc l₁ with
      | .abort => .abort
      | .error e => .error e
      | .ok a =>
        match resolveSetLayoutsGo env device desc l₂ with
        | .abort => .abort
        | .error e => .error e
        | .ok b => .ok (a ++ b) := by
  induction l₁ with
  | nil =>
    cases h : resolveSetLayoutsGo env device desc l₂ <;>
      simp [resolveSetLayoutsGo, h]
  | cons n l₁ ih =>
    simp only [List.cons_append, resolveSetLayoutsGo]
    cases resolveSetLayout env device desc n <;> simp [ih]
    cases resolveSetLayoutsGo env device desc l₁ <;> simp
    cases resolveSetLayoutsGo env device desc l₂ <;> simp

/-- An error escaping the set-layout loop is always an out-of-memory
error wrapped by `try!`. -/
theorem resolveSetLayoutsGo_error_oom (env : NativeEnv) (device : Device)
    (desc : PipelineLayoutDescModel) (l : List Nat)
    (e : PipelineLayoutCreationError)
    (h : resolveSetLayoutsGo env device desc l = .error e) :
    ∃ o, e = .OomError o := by
  induction l with
  | nil => simp [resolveSetLayoutsGo] at h
  | cons n rest ih =>
    simp only [resolveSetLayoutsGo] at h
    revert h
    cases hn : resolveSetLayout env device desc n with
    | abort => intro h; cases h
    | error e' =>
      intro h
      cases h
      revert hn
      unfold resolveSetLayout
      cases desc.provided_set_layout n with
      | some l' =>
        simp only []
        split <;> intro hn <;> cases hn
      | none =>
        simp only []
        cases UnsafeDescriptorSetLayout.new env device _ with
        | ok _ => intro hn; cases hn
        | error o => intro hn; cases hn; exact ⟨o, rfl⟩
    | ok l' =>
      cases hr : resolveSetLayoutsGo env device desc rest <;> intro h <;>
        cases h
      exact ih hr

/-- If no index in the list produces an error, the set-layout loop does
not produce one either (it completes or panics). -/
theorem resolveSetLayoutsGo_ne_error (env : NativeEnv) (device : Device)
    (desc : PipelineLayoutDescModel) (l : List Nat)
    (hne : ∀ j ∈ l, ∀ e, resolveSetLayout env device desc j ≠ .error e) :
    ∀ e, resolveSetLayoutsGo env device desc l ≠ .error e := by
  induction l with
  | nil => intro e h; cases h
  | cons n rest ih =>
    intro e h
    simp only [resolveSetLayoutsGo] at h
    revert h
    cases hn : resolveSetLayout env device desc n with
    | abort => intro h; cases h
    | error e' => exact absurd hn (hne n (by simp) e')
    | ok l' =>
      cases hr : resolveSetLayoutsGo env device desc rest <;> intro h <;>
        cases h
      exact ih (fun j hj => hne j (by simp [hj])) e hr

/-- A successful run of the set-layout loop resolves exactly the listed
indices, in order. -/
theorem resolveSetLayoutsGo_ok (env : NativeEnv) (device : Device)
    (desc : PipelineLayoutDescModel) (l : List Nat)
    (out : List UnsafeDescriptorSetLayout)
    (h : resolveSetLayoutsGo env device desc l = .ok out) :
    out.length = l.length ∧
      ∀ k (hk : k < l.length),
        ∃ a, out[k]? = some a ∧
          resolveSetLayout env device desc (l.get ⟨k, hk⟩) = .ok a := by
  induction l generalizing out with
  | nil =>
    cases h
    exact ⟨rfl, fun k hk => by simp at hk⟩
  | cons n rest ih =>
    simp only [resolveSetLayoutsGo] at h
    revert h
    cases hn : resolveSetLayout env device desc n with
    | abort => intro h; cases h
    | error e' => intro h; cases h
    | ok l' =>
      cases hr : resolveSetLayoutsGo env device desc rest with
      | abort => intro h; cases h
      | error e' => intro h; cases h
      | ok ls =>
        intro h
        cases h
        obtain ⟨hlen, hget⟩ := ih ls hr
        refine ⟨by simp [hlen], ?_⟩
        intro k hk
        cases k with
        | zero => exact ⟨l', by simp, hn⟩
        | succ k =>
          obtain ⟨a, ha, hres⟩ := hget k (by simpa using hk)
          exact ⟨a, by simpa using ha, by simpa using hres⟩

/-- A range violating one of the three shape rules is rejected with
`InvalidPushConstant`, whatever the size limit. -/
theorem validatePcRange_shape_bad (device : Device)
    (r : PipelineLayoutDescPcRange)
    (hshape : r.stages = ShaderStages.none ∨ r.size = 0 ∨ r.size % 4 ≠ 0) :
    validatePcRange device r = .error .InvalidPushConstant := by
  unfold validatePcRange
  rw [if_pos hshape]

/-- A well-shaped range whose end exceeds the limit is rejected with
`MaxPushConstantsSizeExceeded`. -/
theorem validatePcRange_limit (device : Device)
    (r : PipelineLayoutDescPcRange)
    (hshape : ¬(r.stages = ShaderStages.none ∨ r.size = 0 ∨ r.size % 4 ≠ 0))
    (hbig : r.offset + r.size > device.max_push_constants_size) :
    validatePcRange device r = .error .MaxPushConstantsSizeExceeded := by
  unfold validatePcRange
  rw [if_neg hshape, if_pos hbig]

/-- A well-shaped range is never rejected with `InvalidPushConstant`. -/
theorem validatePcRange_ne_invalid (device : Device)
    (r : PipelineLayoutDescPcRange)
    (hshape : ¬(r.stages = ShaderStages.none ∨ r.size = 0 ∨ r.size % 4 ≠ 0)) :
    validatePcRange device r ≠ .error .InvalidPushConstant := by
  unfold validatePcRange
  rw [if_neg hshape]
  split <;> intro h <;> cases h

/-- If every present range at the indices of `l₁` validates, and the
present range at `i` is rejected, the loop over `l₁ ++ i :: l₂` reports
exactly that rejection. -/
theorem assembleGo_error_after_ok_prefix (device : Device)
    (desc : PipelineLayoutDescModel) (l₁ l₂ : List Nat) (i : Nat)
    (r : PipelineLayoutDescPcRange) (e : PipelineLayoutCreationError)
    (hpre : ∀ j ∈ l₁, ∀ rj, desc.push_constants_range j = some rj →
      ∃ pc, validatePcRange device rj = .ok pc)
    (hi : desc.push_constants_range i = some r)
    (hv : validatePcRange device r = .error e) :
    assembleGo device desc (l₁ ++ i :: l₂) = .error e := by
  induction l₁ with
  | nil => simp [assembleGo, hi, hv]
  | cons j l₁ ih =>
    have ih' := ih (fun j' hj' => hpre j' (by simp [hj']))
    simp only [List.cons_append, assembleGo]
    cases hj : desc.push_constants_range j with
    | none => exact ih'
    | some rj =>
      obtain ⟨pc, hpc⟩ := hpre j (by simp) rj hj
      simp [hpc, ih']

/-- If no present range violates a shape rule, the loop never reports
`InvalidPushConstant`. -/
theorem assembleGo_ne_invalid (device : Device)
    (desc : PipelineLayoutDescModel) (l : List Nat)
    (hshape : ∀ j r, desc.push_constants_range j = some r →
      ¬(r.stages = ShaderStages.none ∨ r.size = 0 ∨ r.size % 4 ≠ 0)) :
    assembleGo device desc l ≠ .error .InvalidPushConstant := by
  induction l with
  | nil => intro h; cases h
  | cons j rest ih =>
    intro h
    simp only [assembleGo] at h
    cases hj : desc.push_constants_range j with
    | none => rw [hj] at h; exact ih h
    | some rj =>
      rw [hj] at h
      cases hv : validatePcRange device rj with
      | error e =>
        simp [hv] at h
        subst h
        exact validatePcRange_ne_invalid device rj (hshape j rj hj) hv
      | ok pc =>
        simp only [hv] at h
        cases hr : assembleGo device desc rest with
        | error e' =>
          simp [hr] at h
          subst h
          exact ih hr
        | ok out => simp [hr] at h

/-- A sparse index (one at which the description returns no range) is
skipped: the loop behaves as if the index were not listed at all. -/
theorem assembleGo_skip (device : Device) (desc : PipelineLayoutDescModel)
    (l₁ l₂ : List Nat) (i : Nat)
    (hi : desc.push_constants_range i = Option.none) :
    assembleGo device desc (l₁ ++ i :: l₂) = assembleGo device desc (l₁ ++ l₂) := by
  induction l₁ with
  | nil => simp [assembleGo, hi]
  | cons j l₁ ih =>
    simp only [List.cons_append, assembleGo]
    cases hj : desc.push_constants_range j with
    | none => exact ih
    | some rj => simp [ih]

/-- A panic during set-layout resolution propagates: construction aborts
without issuing the native creation call. -/
theorem new_of_resolve_abort (env : NativeEnv) (device : Device)
    (desc : PipelineLayoutDescModel)
    (h : resolveSetLayouts env device desc = .abort) :
    PipelineLayout.new env device desc = (.abort, false) := by
  unfold PipelineLayout.new
  rw [h]

/-- An error during set-layout resolution propagates without the native
creation call being issued. -/
theorem new_of_resolve_error (env : NativeEnv) (device : Device)
    (desc : PipelineLayoutDescModel) (e : PipelineLayoutCreationError)
    (h : resolveSetLayouts env device desc = .error e) :
    PipelineLayout.new env device desc = (.error e, false) := by
  unfold PipelineLayout.new
  rw [h]

/-- When resolution succeeds, the set-count limit holds and the
push-constant assembler reports an error, construction returns exactly
that error without issuing the native creation call. -/
theorem new_of_assemble_error (env : NativeEnv) (device : Device)
    (desc : PipelineLayoutDescModel) (ls : List UnsafeDescriptorSetLayout)
    (e : PipelineLayoutCreationError)
    (hres : resolveSetLayouts env device desc = .ok ls)
    (hlen : ¬ ls.length > device.max_bound_descriptor_sets)
    (ha : assemblePushConstants device desc = .error e) :
    PipelineLayout.new env device desc = (.error e, false) := by
  unfold PipelineLayout.new
  rw [hres]
  simp only [List.length_map]
  rw [if_neg hlen, ha]

/-- The native-call stage records that the call was issued, and the only
error it can surface is an out-of-memory translation. -/
theorem buildNative_spec (env : NativeEnv) (device : Device)
    (desc : PipelineLayoutDescModel) (ls : List UnsafeDescriptorSetLayout)
    (pcs : List vk.PushConstantRange) (e : PipelineLayoutCreationError)
    (b : Bool) (h : buildNative env device desc ls pcs = (.error e, b)) :
    (∃ o, e = .OomError o) ∧ b = true := by
  simp only [buildNative] at h
  split at h
  · simp at h
  · simp at h
    exact ⟨⟨.OutOfHostMemory, h.1.symm⟩, h.2⟩
  · simp at h
    exact ⟨⟨.OutOfDeviceMemory, h.1.symm⟩, h.2⟩
  · simp at h

/-! Claim theorems. -/

/-- C1: the claim states that the internal invariant check of
`PipelineLayout::new` (the `debug_assert!` after assembling the ranges)
detects duplicate stage coverage, i.e. that its checked condition
evaluates to `false` on such a list.  The code disagrees: on a list of
two ranges both covering the vertex stage, the checked condition
evaluates to `true` (the accumulator is updated with `&=` instead of
`|=`, so it stays `0` and no overlap is ever detected), contradicting
the source's own comment that each stage bit "must only be present in a
single push constants range". -/
theorem C1_overlap_check_passes_duplicate_stages :
    vertexStages.into &&& vertexStages.into ≠ 0 ∧
    pcOverlapCheck
      [{ stageFlags := vertexStages.into, offset := 0, size := 4 },
       { stageFlags := vertexStages.into, offset := 4, size := 4 }] = true := by
  exact ⟨by decide, rfl⟩

/-- C2: whenever `PipelineLayout::new` returns one of the three
validation errors, the native pipeline-layout creation call has not been
issued (the recorded call flag is `false`): validation short-circuits
construction before any native pipeline-layout object can be created. -/
theorem C2_validation_errors_precede_native_call (env : NativeEnv)
    (device : Device) (desc : PipelineLayoutDescModel)
    (e : PipelineLayoutCreationError) (b : Bool)
    (h : PipelineLayout.new env device desc = (.error e, b))
    (he : isValidationError e = true) :
    b = false := by
  unfold PipelineLayout.new at h
  cases hres : resolveSetLayouts env device desc with
  | abort =>
    simp only [hres] at h
    exact (congrArg Prod.snd h).symm
  | error e' =>
    simp only [hres] at h
    exact (congrArg Prod.snd h).symm
  | ok ls =>
    simp only [hres] at h
    by_cases hlen :
        (ls.map (fun l => l.handle)).length > device.max_bound_descriptor_sets
    · rw [if_pos hlen] at h
      exact (congrArg Prod.snd h).symm
    · rw [if_neg hlen] at h
      cases ha : assemblePushConstants device desc with
      | error e' =>
        simp only [ha] at h
        exact (congrArg Prod.snd h).symm
      | ok pcs =>
        simp only [ha] at h
        rw [if_pos (pcOverlapCheck_eq_true pcs)] at h
        obtain ⟨⟨o, rfl⟩, -⟩ := buildNative_spec env device desc ls pcs e b h
        simp [isValidationError] at he

/-- C2 witness: a description with one provided set layout on a device
admitting zero bound sets fails validation with
`MaxDescriptorSetsLimitExceeded`, and the recorded native-call flag is
`false`. -/
theorem C2_witness :
    PipelineLayout.new cenv cdevNoSets descOneProvided =
      (.error .MaxDescriptorSetsLimitExceeded, false) ∧
    isValidationError .MaxDescriptorSetsLimitExceeded = true ∧
    false = false :=
  ⟨rfl, rfl,
    C2_validation_errors_precede_native_call cenv cdevNoSets descOneProvided
      .MaxDescriptorSetsLimitExceeded false rfl rfl⟩

/-- C4: within a single range, the stage/size shape checks are performed
before the size-limit check: a range that both violates a shape rule and
exceeds the device's push-constant size limit is reported as
`InvalidPushConstant`, never as `MaxPushConstantsSizeExceeded`. -/
theorem C4_shape_checks_precede_limit_check (device : Device)
    (r : PipelineLayoutDescPcRange)
    (hshape : r.stages = ShaderStages.none ∨ r.size = 0 ∨ r.size % 4 ≠ 0)
    (hbig : r.offset + r.size > device.max_push_constants_size) :
    validatePcRange device r = .error .InvalidPushConstant :=
  validatePcRange_shape_bad device r hshape

/-- C4 witness: a range of size 6 (not a multiple of 4) that also
exceeds a 4-byte limit is reported as `InvalidPushConstant`. -/
theorem C4_witness :
    ((⟨0, 6, vertexStages⟩ : PipelineLayoutDescPcRange).stages = ShaderStages.none ∨
      (6 : Nat) = 0 ∨ (6 : Nat) % 4 ≠ 0) ∧
    (0 : Nat) + 6 > (⟨1, 4, 4⟩ : Device).max_push_constants_size ∧
    validatePcRange ⟨1, 4, 4⟩ ⟨0, 6, vertexStages⟩ = .error .InvalidPushConstant :=
  ⟨by decide, by decide,
    C4_shape_checks_precede_limit_check ⟨1, 4, 4⟩ ⟨0, 6, vertexStages⟩
      (by decide) (by decide)⟩

/-- C5: when the resolved set-layout list is longer than the device's
`max_bound_descriptor_sets` limit, construction fails with
`MaxDescriptorSetsLimitExceeded` and the native creation call is not
issued. -/
theorem C5_set_count_limit (env : NativeEnv) (device : Device)
    (desc : PipelineLayoutDescModel) (ls : List UnsafeDescriptorSetLayout)
    (hres : resolveSetLayouts env device desc = .ok ls)
    (hlen : ls.length > device.max_bound_descriptor_sets) :
    PipelineLayout.new env device desc =
      (.error .MaxDescriptorSetsLimitExceeded, false) := by
  unfold PipelineLayout.new
  rw [hres]
  simp only [List.length_map]
  rw [if_pos hlen]

/-- C5 witness: one resolved set on a device admitting zero bound sets. -/
theorem C5_witness :
    resolveSetLayouts cenv cdevNoSets descOneProvided = .ok [cLayout] ∧
    (1 : Nat) > cdevNoSets.max_bound_descriptor_sets ∧
    PipelineLayout.new cenv cdevNoSets descOneProvided =
      (.error .MaxDescriptorSetsLimitExceeded, false) :=
  ⟨rfl, by decide,
    C5_set_count_limit cenv cdevNoSets descOneProvided [cLayout] rfl (by decide)⟩

/-- C10: for a range accepted by the per-range validation, given that
`offset + size` does not overflow the machine word and that the limit is
a 32-bit quantity, the passed size-limit check bounds `offset` and
`size` below `2 ^ 32`, so the `as u32` narrowing casts are lossless and
the native entry carries exactly the declared offset, size and stage
mask. -/
theorem C10_narrowing_casts_lossless (device : Device)
    (r : PipelineLayoutDescPcRange) (pc : vk.PushConstantRange)
    (hlim : device.max_push_constants_size < 2 ^ 32)
    (hword : r.offset + r.size < 2 ^ 64)
    (hok : validatePcRange device r = .ok pc) :
    r.offset < 2 ^ 32 ∧ r.size < 2 ^ 32 ∧
      pc = { stageFlags := r.stages.into, offset := r.offset,
             size := r.size } := by
  unfold validatePcRange at hok
  split at hok
  · cases hok
  · split at hok
    · cases hok
    · rename_i hshape hle
      have ho : r.offset < 2 ^ 32 := by omega
      have hs : r.size < 2 ^ 32 := by omega
      cases hok
      refine ⟨ho, hs, ?_⟩
      have h1 : r.offset % 2 ^ 32 = r.offset := Nat.mod_eq_of_lt ho
      have h2 : r.size % 2 ^ 32 = r.size := Nat.mod_eq_of_lt hs
      simp [h1, h2]
      omega

/-- C10 witness: the range `(offset 0, size 8, vertex)` on a 128-byte
limit is accepted and its native entry carries exactly those values. -/
theorem C10_witness :
    cdev.max_push_constants_size < 2 ^ 32 ∧
    (0 : Nat) + 8 < 2 ^ 64 ∧
    validatePcRange cdev ⟨0, 8, vertexStages⟩ = .ok ⟨1, 0, 8⟩ ∧
    ((0 : Nat) < 2 ^ 32 ∧ (8 : Nat) < 2 ^ 32 ∧
      (⟨1, 0, 8⟩ : vk.PushConstantRange) =
        { stageFlags := ShaderStages.into vertexStages, offset := 0,
          size := 8 }) :=
  ⟨by decide, by decide, rfl,
    C10_narrowing_casts_lossless cdev ⟨0, 8, vertexStages⟩ ⟨1, 0, 8⟩
      (by decide) (by decide) rfl⟩

/-- C3 counterexample: the claim quantifies over every description that
supplies a cross-device layout at some set index, but an out-of-memory
failure while building an absent earlier set pre-empts the assertion:
here set 1 supplies a layout of the foreign device 99, yet construction
returns the normal error value `OomError` instead of panicking. -/
theorem C3_counterexample :
    descCross.provided_set_layout 1 = some cLayoutOther ∧
    cLayoutOther.device.internal_object ≠ cdev.internal_object ∧
    (1 : Nat) < descCross.num_sets ∧
    PipelineLayout.new cenvOom cdev descCross =
      (.error (.OomError .OutOfHostMemory), false) :=
  ⟨rfl, by decide, by decide, rfl⟩

/-- C3 (amended): if the description supplies, at some set index `i`, an
already-built set layout belonging to a different device, and resolving
the earlier sets does not return an error (such as an out-of-memory
failure building an absent set), then construction panics: it returns no
normal error value and never reaches the native creation call. -/
theorem C3_cross_device_layout_panics (env : NativeEnv) (device : Device)
    (desc : PipelineLayoutDescModel) (i : Nat)
    (l : UnsafeDescriptorSetLayout)
    (hi : i < desc.num_sets)
    (hl : desc.provided_set_layout i = some l)
    (hcross : l.device.internal_object ≠ device.internal_object)
    (hearlier : ∀ j, j < i →
      ∀ e, resolveSetLayout env device desc j ≠ .error e) :
    PipelineLayout.new env device desc = (.abort, false) := by
  apply new_of_resolve_abort
  obtain ⟨l₂, hsplit⟩ := range_split hi
  unfold resolveSetLayouts
  rw [hsplit, resolveSetLayoutsGo_append]
  have hnoerr := resolveSetLayoutsGo_ne_error env device desc (List.range i)
    (fun j hj e => hearlier j (List.mem_range.mp hj) e)
  have habort : resolveSetLayout env device desc i = .abort := by
    unfold resolveSetLayout
    simp [hl, hcross]
  cases hpre : resolveSetLayoutsGo env device desc (List.range i) with
  | abort => simp only [hpre]
  | error e => exact absurd hpre (hnoerr e)
  | ok a =>
    simp only [hpre, resolveSetLayoutsGo, habort]

/-- C3 witness (for the amended claim): a description whose very first
set supplies a layout of the foreign device 99 makes construction panic
without issuing the native call. -/
theorem C3_witness :
    (0 : Nat) < descCrossFirst.num_sets ∧
    descCrossFirst.provided_set_layout 0 = some cLayoutOther ∧
    cLayoutOther.device.internal_object ≠ cdev.internal_object ∧
    PipelineLayout.new cenv cdev descCrossFirst = (.abort, false) :=
  ⟨by decide, rfl, by decide,
    C3_cross_device_layout_panics cenv cdev descCrossFirst 0 cLayoutOther
      (by decide) rfl (by decide)
      (fun j hj _ => absurd hj (Nat.not_lt_zero j))⟩

/-- C9: a push-constant index at which the description returns no entry
is skipped by the assembler without error and contributes no entry: the
loop over `0 .. num_push_constants_ranges()` behaves exactly as the loop
with that index removed. -/
theorem C9_sparse_pc_index_skipped (device : Device)
    (desc : PipelineLayoutDescModel) (i : Nat)
    (hi : i < desc.num_push_constants_ranges)
    (hnone : desc.push_constants_range i = Option.none) :
    ∃ l₁ l₂, List.range desc.num_push_constants_ranges = l₁ ++ i :: l₂ ∧
      assemblePushConstants device desc = assembleGo device desc (l₁ ++ l₂) := by
  obtain ⟨l₂, hsplit⟩ := range_split hi
  refine ⟨List.range i, l₂, hsplit, ?_⟩
  unfold assemblePushConstants
  rw [hsplit]
  exact assembleGo_skip device desc (List.range i) l₂ i hnone

/-- C9 witness: a description whose push-constant index 0 is absent and
index 1 holds a valid range. -/
theorem C9_witness :
    (0 : Nat) < descSparsePc.num_push_constants_ranges ∧
    descSparsePc.push_constants_range 0 = Option.none ∧
    (∃ l₁ l₂,
      List.range descSparsePc.num_push_constants_ranges = l₁ ++ 0 :: l₂ ∧
      assemblePushConstants cdev descSparsePc =
        assembleGo cdev descSparsePc (l₁ ++ l₂)) :=
  ⟨by decide, rfl,
    C9_sparse_pc_index_skipped cdev descSparsePc 0 (by decide) rfl⟩

/-- If resolution succeeded, the set-count limit holds, every present
range before index `i` validates, and the present range at `i` is
rejected with `e`, then construction fails with exactly `e` and the
native call is not issued. -/
theorem new_error_at_pc_index (env : NativeEnv) (device : Device)
    (desc : PipelineLayoutDescModel) (ls : List UnsafeDescriptorSetLayout)
    (i : Nat) (r : PipelineLayoutDescPcRange)
    (e : PipelineLayoutCreationError)
    (hres : resolveSetLayouts env device desc = .ok ls)
    (hlen : ¬ ls.length > device.max_bound_descriptor_sets)
    (hearlier : ∀ j, j < i → ∀ rj, desc.push_constants_range j = some rj →
      ∃ pc, validatePcRange device rj = .ok pc)
    (hi : i < desc.num_push_constants_ranges)
    (hr : desc.push_constants_range i = some r)
    (hv : validatePcRange device r = .error e) :
    PipelineLayout.new env device desc = (.error e, false) := by
  apply new_of_assemble_error env device desc ls e hres hlen
  obtain ⟨l₂, hsplit⟩ := range_split hi
  unfold assemblePushConstants
  rw [hsplit]
  exact assembleGo_error_after_ok_prefix device desc (List.range i) l₂ i r e
    (fun j hj rj hrj => hearlier j (List.mem_range.mp hj) rj hrj) hr hv

/-- If every present range is well-shaped, construction never fails with
`InvalidPushConstant`, whatever else happens. -/
theorem new_ne_invalid_of_all_shaped (env : NativeEnv) (device : Device)
    (desc : PipelineLayoutDescModel)
    (res : RunResult PipelineLayoutCreationError PipelineLayout) (b : Bool)
    (hshape : ∀ j r, desc.push_constants_range j = some r →
      ¬(r.stages = ShaderStages.none ∨ r.size = 0 ∨ r.size % 4 ≠ 0))
    (h : PipelineLayout.new env device desc = (res, b)) :
    res ≠ .error .InvalidPushConstant := by
  intro hbad
  subst hbad
  unfold PipelineLayout.new at h
  cases hres : resolveSetLayouts env device desc with
  | abort => simp only [hres] at h; simp at h
  | error e' =>
    simp only [hres] at h
    obtain ⟨o, rfl⟩ := resolveSetLayoutsGo_error_oom env device desc _ e' hres
    simp at h
  | ok ls =>
    simp only [hres] at h
    by_cases hlen :
        (ls.map (fun l => l.handle)).length > device.max_bound_descriptor_sets
    · rw [if_pos hlen] at h; simp at h
    · rw [if_neg hlen] at h
      cases ha : assemblePushConstants device desc with
      | error e' =>
        simp only [ha] at h
        have he' : e' = PipelineLayoutCreationError.InvalidPushConstant := by
          simpa using congrArg Prod.fst h
        subst he'
        unfold assemblePushConstants at ha
        exact assembleGo_ne_invalid device desc _ hshape ha
      | ok pcs =>
        simp only [ha] at h
        rw [if_pos (pcOverlapCheck_eq_true pcs)] at h
        obtain ⟨⟨o, ho⟩, -⟩ := buildNative_spec env device desc ls pcs _ b h
        simp at ho

/-- C6 counterexample: the claim quantifies over every description
containing a shape-violating present range, but an earlier range can
fail the size-limit check first: here range 1 has size 0, yet
construction reports `MaxPushConstantsSizeExceeded` (for range 0), not
`InvalidPushConstant`. -/
theorem C6_counterexample :
    descLimitThenShape.push_constants_range 1 = some ⟨0, 0, vertexStages⟩ ∧
    ((⟨0, 0, vertexStages⟩ : PipelineLayoutDescPcRange).stages = ShaderStages.none ∨
      (⟨0, 0, vertexStages⟩ : PipelineLayoutDescPcRange).size = 0 ∨
      (⟨0, 0, vertexStages⟩ : PipelineLayoutDescPcRange).size % 4 ≠ 0) ∧
    (1 : Nat) < descLimitThenShape.num_push_constants_ranges ∧
    PipelineLayout.new cenv cdev descLimitThenShape =
      (.error .MaxPushConstantsSizeExceeded, false) ∧
    PipelineLayoutCreationError.MaxPushConstantsSizeExceeded ≠
      PipelineLayoutCreationError.InvalidPushConstant :=
  ⟨rfl, by decide, by decide, rfl, by decide⟩

/-- C6 (amended): if set resolution succeeds, the set-count limit holds,
every present range before index `i` passes validation and the present
range at `i` violates a shape rule (empty stage mask, zero size, or size
not a multiple of 4), then construction fails with
`InvalidPushConstant`; conversely, when every present range satisfies
the three shape rules, construction never fails with
`InvalidPushConstant`. -/
theorem C6_invalid_push_constant_characterized :
    (∀ (env : NativeEnv) (device : Device) (desc : PipelineLayoutDescModel)
        (ls : List UnsafeDescriptorSetLayout) (i : Nat)
        (r : PipelineLayoutDescPcRange),
      resolveSetLayouts env device desc = .ok ls →
      ¬ ls.length > device.max_bound_descriptor_sets →
      (∀ j, j < i → ∀ rj, desc.push_constants_range j = some rj →
        ∃ pc, validatePcRange device rj = .ok pc) →
      i < desc.num_push_constants_ranges →
      desc.push_constants_range i = some r →
      (r.stages = ShaderStages.none ∨ r.size = 0 ∨ r.size % 4 ≠ 0) →
      PipelineLayout.new env device desc = (.error .InvalidPushConstant, false)) ∧
    (∀ (env : NativeEnv) (device : Device) (desc : PipelineLayoutDescModel)
        (res : RunResult PipelineLayoutCreationError PipelineLayout) (b : Bool),
      (∀ j r, desc.push_constants_range j = some r →
        ¬(r.stages = ShaderStages.none ∨ r.size = 0 ∨ r.size % 4 ≠ 0)) →
      PipelineLayout.new env device desc = (res, b) →
      res ≠ .error .InvalidPushConstant) :=
  ⟨fun env device desc ls i r hres hlen hearlier hi hr hshape =>
    new_error_at_pc_index env device desc ls i r _ hres hlen hearlier hi hr
      (validatePcRange_shape_bad device r hshape),
   fun env device desc res b hshape h =>
    new_ne_invalid_of_all_shaped env device desc res b hshape h⟩

/-- C6 witness (for the amended claim): a description whose first range
has size 0 is rejected with `InvalidPushConstant`. -/
theorem C6_witness :
    resolveSetLayouts cenv cdev descShapeThenLimit = .ok [] ∧
    descShapeThenLimit.push_constants_range 0 = some ⟨0, 0, vertexStages⟩ ∧
    PipelineLayout.new cenv cdev descShapeThenLimit =
      (.error .InvalidPushConstant, false) :=
  ⟨rfl, rfl,
    C6_invalid_push_constant_characterized.1 cenv cdev descShapeThenLimit []
      0 ⟨0, 0, vertexStages⟩ rfl (by decide)
      (fun j hj _ _ => absurd hj (Nat.not_lt_zero j))
      (by decide) rfl (by decide)⟩

/-- C7 counterexample: the claim quantifies over every description
containing a well-shaped limit-exceeding present range, but an earlier
range can fail the shape checks first: here range 1 is well-shaped and
exceeds the 128-byte limit, yet construction reports
`InvalidPushConstant` (for range 0, whose size is 0), not
`MaxPushConstantsSizeExceeded`. -/
theorem C7_counterexample :
    descShapeThenLimit.push_constants_range 1 = some ⟨0, 256, fragmentStages⟩ ∧
    ¬((⟨0, 256, fragmentStages⟩ : PipelineLayoutDescPcRange).stages = ShaderStages.none ∨
      (⟨0, 256, fragmentStages⟩ : PipelineLayoutDescPcRange).size = 0 ∨
      (⟨0, 256, fragmentStages⟩ : PipelineLayoutDescPcRange).size % 4 ≠ 0) ∧
    (0 : Nat) + 256 > cdev.max_push_constants_size ∧
    PipelineLayout.new cenv cdev descShapeThenLimit =
      (.error .InvalidPushConstant, false) ∧
    PipelineLayoutCreationError.InvalidPushConstant ≠
      PipelineLayoutCreationError.MaxPushConstantsSizeExceeded :=
  ⟨rfl, by decide, by decide, rfl, by decide⟩

/-- C7 (amended): if set resolution succeeds, the set-count limit holds,
every present range before index `i` passes validation and the present
range at `i` is well-shaped, does not overflow the machine word
(`offset + size < 2 ^ 64`, the precondition under which the mathematical
sum coincides with the program's `usize` addition) but ends past the
device's `max_push_constants_size`, then construction fails with
`MaxPushConstantsSizeExceeded`. -/
theorem C7_size_limit_reported (env : NativeEnv) (device : Device)
    (desc : PipelineLayoutDescModel) (ls : List UnsafeDescriptorSetLayout)
    (i : Nat) (r : PipelineLayoutDescPcRange)
    (hres : resolveSetLayouts env device desc = .ok ls)
    (hlen : ¬ ls.length > device.max_bound_descriptor_sets)
    (hearlier : ∀ j, j < i → ∀ rj, desc.push_constants_range j = some rj →
      ∃ pc, validatePcRange device rj = .ok pc)
    (hi : i < desc.num_push_constants_ranges)
    (hr : desc.push_constants_range i = some r)
    (hshape : ¬(r.stages = ShaderStages.none ∨ r.size = 0 ∨ r.size % 4 ≠ 0))
    (hword : r.offset + r.size < 2 ^ 64)
    (hbig : r.offset + r.size > device.max_push_constants_size) :
    PipelineLayout.new env device desc =
      (.error .MaxPushConstantsSizeExceeded, false) :=
  new_error_at_pc_index env device desc ls i r _ hres hlen hearlier hi hr
    (validatePcRange_limit device r hshape hbig)

/-- C7 witness (for the amended claim): a description whose first range
is well-shaped but 256 bytes long on a 128-byte limit is rejected with
`MaxPushConstantsSizeExceeded`. -/
theorem C7_witness :
    resolveSetLayouts cenv cdev descLimitThenShape = .ok [] ∧
    descLimitThenShape.push_constants_range 0 = some ⟨0, 256, vertexStages⟩ ∧
    (0 : Nat) + 256 < 2 ^ 64 ∧
    (0 : Nat) + 256 > cdev.max_push_constants_size ∧
    PipelineLayout.new cenv cdev descLimitThenShape =
      (.error .MaxPushConstantsSizeExceeded, false) :=
  ⟨rfl, rfl, by decide, by decide,
    C7_size_limit_reported cenv cdev descLimitThenShape [] 0
      ⟨0, 256, vertexStages⟩ rfl (by decide)
      (fun j hj _ _ => absurd hj (Nat.not_lt_zero j))
      (by decide) rfl (by decide) (by decide) (by decide)⟩

/-- A successful native-call stage wraps exactly the resources it was
handed: the produced object holds the constructing device, the resolved
set-layout list and the original description, and the call flag is set. -/
theorem buildNative_ok (env : NativeEnv) (device : Device)
    (desc : PipelineLayoutDescModel) (ls : List UnsafeDescriptorSetLayout)
    (pcs : List vk.PushConstantRange) (pl : PipelineLayout) (b : Bool)
    (h : buildNative env device desc ls pcs = (.ok pl, b)) :
    pl.device = device ∧ pl.layouts = ls ∧ pl.desc = desc ∧ b = true := by
  simp only [buildNative] at h
  split at h
  · simp only [Prod.mk.injEq] at h
    obtain ⟨h1, h2⟩ := h
    injection h1 with h1
    subst h1
    exact ⟨rfl, rfl, rfl, h2.symm⟩
  · simp at h
  · simp at h
  · simp at h

/-- Inversion of a successful construction: set resolution succeeded
with exactly the list the object now holds, and the object holds the
constructing device and the original description. -/
theorem new_ok_inversion (env : NativeEnv) (device : Device)
    (desc : PipelineLayoutDescModel) (pl : PipelineLayout) (b : Bool)
    (h : PipelineLayout.new env device desc = (.ok pl, b)) :
    resolveSetLayouts env device desc = .ok pl.layouts ∧
    pl.device = device ∧ pl.desc = desc ∧ b = true := by
  unfold PipelineLayout.new at h
  cases hres : resolveSetLayouts env device desc with
  | abort => simp only [hres] at h; simp at h
  | error e => simp only [hres] at h; simp at h
  | ok ls =>
    simp only [hres] at h
    by_cases hlen :
        (ls.map (fun l => l.handle)).length > device.max_bound_descriptor_sets
    · rw [if_pos hlen] at h; simp at h
    · rw [if_neg hlen] at h
      cases ha : assemblePushConstants device desc with
      | error e => simp only [ha] at h; simp at h
      | ok pcs =>
        simp only [ha] at h
        rw [if_pos (pcOverlapCheck_eq_true pcs)] at h
        obtain ⟨hdev, hlay, hdesc, hb⟩ :=
          buildNative_ok env device desc ls pcs pl b h
        exact ⟨by rw [hlay], hdev, hdesc, hb⟩

/-- A provided set layout that resolves successfully is returned as is. -/
theorem resolveSetLayout_ok_provided (env : NativeEnv) (device : Device)
    (desc : PipelineLayoutDescModel) (i : Nat)
    (l p : UnsafeDescriptorSetLayout)
    (h : resolveSetLayout env device desc i = .ok l)
    (hp : desc.provided_set_layout i = some p) : l = p := by
  unfold resolveSetLayout at h
  simp only [hp] at h
  split at h
  · injection h with h
    exact h.symm
  · cases h

/-- An absent set layout that resolves successfully was freshly built on
the constructing device from the per-binding descriptors of the set,
an unknown binding count being treated as zero. -/
theorem resolveSetLayout_ok_fresh (env : NativeEnv) (device : Device)
    (desc : PipelineLayoutDescModel) (i : Nat)
    (l : UnsafeDescriptorSetLayout)
    (h : resolveSetLayout env device desc i = .ok l)
    (hp : desc.provided_set_layout i = Option.none) :
    l.device = device ∧
    l.bindings = (List.range ((desc.num_bindings_in_set i).getD 0)).map
      (fun d => desc.descriptor i d) := by
  unfold resolveSetLayout at h
  simp only [hp] at h
  unfold UnsafeDescriptorSetLayout.new at h
  cases henv : env.descriptor_set_layout_new device.internal_object
      ((List.range ((desc.num_bindings_in_set i).getD 0)).map
        (fun d => desc.descriptor i d)) with
  | ok hh =>
    simp only [henv] at h
    injection h with h
    rw [← h]
    exact ⟨rfl, rfl⟩
  | error e =>
    simp only [henv] at h
    cases h

/-- C8: on success, the resolved set-layout list has exactly one entry
per set index, in order: entry `i` is the provided layout for set `i`
when one exists and otherwise a freshly built layout from the
per-binding descriptors of set `i` (an unknown binding count counting as
zero); `descriptor_set_layout i` returns entry `i` below `num_sets` and
`none` at or past the end of the list. -/
theorem C8_resolved_set_layout_list (env : NativeEnv) (device : Device)
    (desc : PipelineLayoutDescModel) (pl : PipelineLayout) (b : Bool)
    (h : PipelineLayout.new env device desc = (.ok pl, b)) :
    pl.layouts.length = desc.num_sets ∧
    (∀ i, pl.descriptor_set_layout i = pl.layouts[i]?) ∧
    (∀ i, i < desc.num_sets → ∃ l, pl.layouts[i]? = some l ∧
      resolveSetLayout env device desc i = .ok l ∧
      (∀ p, desc.provided_set_layout i = some p → l = p) ∧
      (desc.provided_set_layout i = Option.none →
        l.device = device ∧
        l.bindings = (List.range ((desc.num_bindings_in_set i).getD 0)).map
          (fun d => desc.descriptor i d))) ∧
    (∀ i, desc.num_sets ≤ i → pl.descriptor_set_layout i = Option.none) := by
  obtain ⟨hres, -, -, -⟩ := new_ok_inversion env device desc pl b h
  obtain ⟨hlen, hget⟩ := resolveSetLayoutsGo_ok env device desc _ _ hres
  have hlen' : pl.layouts.length = desc.num_sets := by simpa using hlen
  refine ⟨hlen', fun i => rfl, ?_, ?_⟩
  · intro i hi
    have hi' : i < (List.range desc.num_sets).length := by simpa using hi
    obtain ⟨a, ha, hresolve⟩ := hget i hi'
    have hidx : (List.range desc.num_sets).get ⟨i, hi'⟩ = i := by simp
    rw [hidx] at hresolve
    exact ⟨a, ha, hresolve,
      fun p hp => resolveSetLayout_ok_provided env device desc i a p hresolve hp,
      fun hp => resolveSetLayout_ok_fresh env device desc i a hresolve hp⟩
  · intro i hi
    exact List.getElem?_eq_none (by rw [hlen']; exact hi)

/-- C8 witness: the description with one set of three bindings and no
provided layout yields exactly one freshly built set layout with those
three descriptors; lookup at index 0 returns it, lookup at 1 returns
none. -/
theorem C8_witness :
    PipelineLayout.new cenv cdev descBuildOne = (.ok cpl, true) ∧
    (cpl.layouts.length = descBuildOne.num_sets ∧
    (∀ i, cpl.descriptor_set_layout i = cpl.layouts[i]?) ∧
    (∀ i, i < descBuildOne.num_sets → ∃ l, cpl.layouts[i]? = some l ∧
      resolveSetLayout cenv cdev descBuildOne i = .ok l ∧
      (∀ p, descBuildOne.provided_set_layout i = some p → l = p) ∧
      (descBuildOne.provided_set_layout i = Option.none →
        l.device = cdev ∧
        l.bindings =
          (List.range ((descBuildOne.num_bindings_in_set i).getD 0)).map
            (fun d => descBuildOne.descriptor i d))) ∧
    (∀ i, descBuildOne.num_sets ≤ i →
      cpl.descriptor_set_layout i = Option.none)) :=
  ⟨rfl, C8_resolved_set_layout_list cenv cdev descBuildOne cpl true rfl⟩

end Vulkano
